import Mathlib

/-!
Shallow embedding of `src/sim900.py` (a SIM900 modem session protocol
engine) and verification of the specification's claims about it.

Modelling conventions, fixed throughout the file:

* Python strings (and the decoded byte buffers handed to `parser_read`)
  are modelled as `List Char` (abbreviated `Str`).  `str` converts a Lean
  string literal into that representation.
* Python exceptions are modelled by the explicit error type `PyExc`.
  Stateful methods of the `Sim900` class become functions
  `St → args → St × Except PyExc α`: the state component is always
  returned (side effects performed before a raise persist, as in Python)
  and the `Except` component is the normal return value or the exception
  propagating out of the method.
* Externally visible side effects (serial writes, `sleep` calls, handler
  callbacks) are recorded in an append-only event trace inside the state.
  The default `additional_function_message` / `additional_function_call`
  handlers are no-ops in the source; invoking them is modelled by
  emitting a `msgHandler` / `callHandler` event.
* The environment (the serial port and the external PDU codec
  `gsmmodem.pdu.decodeSmsPdu`, which the spec treats as an external
  collaborator) is a `World`: a stream of read buffers, a stream of
  `in_waiting` poll answers, a clock value used for `datetime.now()`,
  and a function giving the codec's verdict on each PDU line
  (`Except Unit Decoded`, where the error case is `EncodingError`).
* Timestamps are abstract `Nat` values; `sleep` durations are recorded in
  tenths of a time unit (so `sleep(0.5)` is `Event.sleep 5` and the
  3-unit response wait is `Event.sleep 30`).
-/

/-- Python strings are modelled as lists of characters. -/
abbrev Str := List Char

/-- Conversion of a Lean string literal into the model representation. -/
def str (s : String) : Str := s.toList

/-- Python-level exceptions that can propagate through the modelled code:
`IndexError`, `ValueError` (from `int(...)`), and the two exception
classes declared in the source, `Sim900NoResponse` and `Sim900Error`
(the latter carrying `self.buffer` for diagnostics). -/
inductive PyExc where
  | indexError : PyExc
  | valueError : PyExc
  | noResponse : PyExc
  | commandError (buf : Option Str) : PyExc
  deriving DecidableEq, Repr

/-- Python list/tuple indexing `l[i]` for a non-negative index: raises
`IndexError` when out of range. -/
def pyIndex {α : Type} (l : List α) (i : Nat) : Except PyExc α :=
  match l[i]? with
  | some a => Except.ok a
  | none => Except.error PyExc.indexError

/-- Python's whitespace predicate, covering the characters `str.split()`
separates on. -/
def pyWs (c : Char) : Bool :=
  c == ' ' || c == '\t' || c == '\n' || c == '\r' ||
    c == Char.ofNat 11 || c == Char.ofNat 12

/-- Strip leading and trailing Python whitespace (as `int(...)` does). -/
def stripWs (s : Str) : Str :=
  ((s.dropWhile pyWs).reverse.dropWhile pyWs).reverse

/-- Accumulator loop for decimal digit parsing. -/
def digitsValGo (acc : Nat) : Str → Option Nat
  | [] => some acc
  | c :: r =>
    if 48 ≤ c.toNat ∧ c.toNat ≤ 57 then digitsValGo (10 * acc + (c.toNat - 48)) r
    else none

/-- Value of a non-empty all-decimal-digit string, `none` otherwise. -/
def digitsVal (s : Str) : Option Nat :=
  if s.isEmpty then none else digitsValGo 0 s

/-- Python `int(s)` restricted to the shapes the source feeds it: optional
sign, decimal digits, optional surrounding whitespace.  `none` models a
`ValueError`. -/
def pyInt (s0 : Str) : Option Int :=
  match stripWs s0 with
  | '-' :: ds => (digitsVal ds).map (fun n => -(n : Int))
  | '+' :: ds => (digitsVal ds).map (fun n => (n : Int))
  | ds => (digitsVal ds).map (fun n => (n : Int))

/-- Value of a single hexadecimal digit (both cases), `none` otherwise. -/
def hexVal (c : Char) : Option Nat :=
  let n := c.toNat
  if 48 ≤ n ∧ n ≤ 57 then some (n - 48)
  else if 65 ≤ n ∧ n ≤ 70 then some (n - 55)
  else if 97 ≤ n ∧ n ≤ 102 then some (n - 87)
  else none

/-- Accumulator loop for hexadecimal parsing. -/
def hexStrValGo (acc : Nat) : Str → Option Nat
  | [] => some acc
  | c :: r =>
    match hexVal c with
    | none => none
    | some d => hexStrValGo (16 * acc + d) r

/-- Python `int(s, 16)` restricted to non-empty hex-digit strings, which is
the shape `decode` feeds it; `none` models a `ValueError`. -/
def hexStrVal (s : Str) : Option Nat :=
  if s.isEmpty then none else hexStrValGo 0 s

/-- Embeds `decode` from src/sim900.py (lines 82-87): the loop
`for i in range(int(len(st)/4)): r += chr(int(st[4i:4i+4], 16))` is
rendered as structural recursion taking four characters at a time;
trailing characters beyond a multiple of 4 are ignored, exactly as the
`range(len//4)` bound ignores them.  A chunk that is not valid
hexadecimal raises `ValueError` (`Except.error`), as `int(..., 16)`
does. -/
def decode : Str → Except PyExc Str
  | a :: b :: c :: d :: rest =>
    match hexStrVal [a, b, c, d], decode rest with
    | some n, Except.ok r => Except.ok (Char.ofNat n :: r)
    | none, _ => Except.error PyExc.valueError
    | some _, Except.error e => Except.error e
  | _ => Except.ok []

/-- Upper-case hexadecimal digit for a value below 16. -/
def hexDig (n : Nat) : Char :=
  if n < 10 then Char.ofNat (48 + n) else Char.ofNat (55 + n)

/-- The four upper-case hex digits of a 16-bit value (big endian). -/
def toHex4 (n : Nat) : Str :=
  [hexDig (n / 4096 % 16), hexDig (n / 256 % 16), hexDig (n / 16 % 16), hexDig (n % 16)]

/-- UTF-16-BE encoding of one character as upper-case hex: a single
16-bit unit for BMP code points, a surrogate pair for the rest. -/
def encodeChar (c : Char) : Str :=
  let v := c.toNat
  if v < 65536 then toHex4 v
  else toHex4 (55296 + (v - 65536) / 1024) ++ toHex4 (56320 + (v - 65536) % 1024)

/-- Embeds `encode` from src/sim900.py (lines 90-91):
`hexlify(st.encode("utf-16-be")).decode("utf-8").upper()`.  The
composition of UTF-16-BE encoding, hexlify and upper-casing is rendered
directly as the upper-case hex of each character's UTF-16 units. -/
def encode (s : Str) : Str := (s.map encodeChar).flatten

/-- The transport's line separator. -/
def crlf : Str := ['\r', '\n']

/-- Python `s.split("\r\n")`: repeatedly split at the leftmost occurrence
of the separator.  Structural recursion over the buffer; pieces may be
empty, exactly as in Python. -/
def pySplitCRLF : Str → List Str
  | [] => [[]]
  | '\r' :: '\n' :: rest => [] :: pySplitCRLF rest
  | c :: rest =>
    match pySplitCRLF rest with
    | [] => [[c]]
    | p :: ps => (c :: p) :: ps

/-- Embeds `parser_read` from src/sim900.py (lines 94-98):
`tuple(filter(truth, st.decode("utf-8").split("\r\n")))`.  The UTF-8
decode of the raw bytes is the identity in this model (buffers are
already `Str`); `truth` keeps exactly the non-empty lines. -/
def parser_read (st : Str) : List Str :=
  (pySplitCRLF st).filter (fun x => !x.isEmpty)

/-- Fragmentation header of a concatenated-SMS PDU, as surfaced by the
external codec: `udh[0].reference`, `udh[0].number` (the 1-based part
index) and `udh[0].parts` (the declared total). -/
structure Udh where
  reference : Nat
  number : Nat
  parts : Nat
  deriving DecidableEq, Repr

/-- Result of a successful `decodeSmsPdu` call, as consumed by the
source: sender (`m["number"]`), timestamp (`m["time"]`), text and the
optional fragmentation header (`m.get("udh")`; `none` also covers a
present-but-empty `udh` list, which is falsy in the source's walrus
test). -/
structure Decoded where
  number : Str
  time : Nat
  text : Str
  udh : Option Udh
  deriving DecidableEq, Repr

/-- The `Message` dataclass from src/sim900.py (lines 28-40). -/
structure Message where
  phone : Str
  ts : Nat
  text : Str
  deriving DecidableEq, Repr

/-- The `Call` dataclass from src/sim900.py (lines 13-25); `ts` is
`datetime.now()` at construction. -/
structure Call where
  phone : Str
  ts : Nat
  deriving DecidableEq, Repr

/-- State of the `AdditionMessages` reassembly buffer (`self.m`, a
`defaultdict(dict)`): an association list keyed by fragmentation
reference id; each entry maps part indices to texts.  The inner
dictionary is kept sorted by part index with distinct keys, so that its
`map Prod.snd` is precisely Python's
`"".join(t[i] for i in sorted(t.keys()))` and its `length` is
`len(entry.keys())`. -/
abbrev AMState := List (Nat × List (Nat × Str))

/-- Inner-dictionary assignment `entry[partIndex] = text`, keeping the
association list sorted by key and overwriting an existing index. -/
def insertPart : List (Nat × Str) → Nat → Str → List (Nat × Str)
  | [], k, v => [(k, v)]
  | (k', v') :: rest, k, v =>
    if k < k' then (k, v) :: (k', v') :: rest
    else if k = k' then (k, v) :: rest
    else (k', v') :: insertPart rest k v

/-- Outer-dictionary read `self.m[ref]` with `defaultdict(dict)`
semantics: a missing key reads as the empty dictionary. -/
def lookupAM (am : AMState) (k : Nat) : List (Nat × Str) :=
  match am.find? (fun e => e.1 == k) with
  | some e => e.2
  | none => []

/-- Outer-dictionary write `self.m[ref] = entry`. -/
def setAM : AMState → Nat → List (Nat × Str) → AMState
  | [], k, v => [(k, v)]
  | (k', v') :: rest, k, v =>
    if k' = k then (k, v) :: rest else (k', v') :: setAM rest k v

/-- Outer-dictionary removal `self.m.pop(ref)`. -/
def removeAM (am : AMState) (k : Nat) : AMState :=
  am.filter (fun e => e.1 != k)

/-- Embeds `AdditionMessages.__call__` from src/sim900.py (lines 47-62).
The argument is the outcome of the external `decodeSmsPdu` call on the
raw fragment: `Except.error ()` is an `EncodingError`, which the
source's `except EncodingError: pass` turns into a `None` return with no
state change.  On success: a fragment without a fragmentation header is
wrapped and returned directly; a fragment with one is stored at its part
index under its reference id, and the entry completes exactly when the
number of stored part indices equals the *current* fragment's declared
`parts`, in which case the entry is popped and the texts are joined in
ascending part-index order into a `Message` carrying the current
fragment's sender and timestamp. -/
def AdditionMessages.call (am : AMState) (m : Except Unit Decoded) :
    Option Message × AMState :=
  match m with
  | Except.error _ => (none, am)
  | Except.ok d =>
    match d.udh with
    | none => (some ⟨d.number, d.time, d.text⟩, am)
    | some h =>
      let entry := insertPart (lookupAM am h.reference) h.number d.text
      if entry.length = h.parts then
        (some ⟨d.number, d.time, (entry.map Prod.snd).flatten⟩, removeAM am h.reference)
      else
        (none, setAM am h.reference entry)

/-- Externally visible side effects of the session, in order: bytes
written to the serial port, blocking sleeps (duration in tenths of a
time unit), and invocations of the overridable call/message handlers. -/
inductive Event where
  | write (bytes : Str) : Event
  | sleep (tenths : Nat) : Event
  | callHandler (c : Call) : Event
  | msgHandler (m : Message) : Event
  deriving DecidableEq, Repr

/-- An entry of `self._task_queue`.  The source only ever enqueues two
closures: `(self.__incoming_sms, (sms_id,))` and
`(self.additional_function_message, (msg,))`. -/
inductive TaskEntry where
  | incomingSms (smsId : Int) : TaskEntry
  | funcMessage (msg : Message) : TaskEntry
  deriving DecidableEq, Repr

/-- The environment of the session: successive results of
`self._connect.read_all()`, successive answers of the
`self._connect.in_waiting > 0` poll, the current clock value used for
`datetime.now()`, and the external codec's verdict on each PDU line
(`Except.error ()` standing for `EncodingError`). -/
structure World where
  reads : List Str
  avail : List Bool
  now : Nat
  dec : Str → Except Unit Decoded

/-- Session state of the `Sim900` object (src/sim900.py lines 101-119):
the fields touched by the modelled operations, plus the environment and
the event trace. -/
structure St where
  status : Bool
  time_response : Nat
  buffer : Option Str
  auto_del_message : Bool
  npd : Bool
  manySms : Bool
  am : AMState
  taskQueue : List TaskEntry
  world : World
  events : List Event

/-- The state built by `Sim900.__init__`: connection status false,
3-unit response wait, empty buffer, auto-delete on, power-down and
multiple-messages flags false, empty reassembly buffer and task queue,
empty event trace. -/
def initSt (w : World) : St :=
  ⟨false, 3, none, true, false, false, [], [], w, []⟩

/-- Append one event to the trace. -/
def emit (s : St) (e : Event) : St :=
  { s with events := s.events ++ [e] }

/-- Sequencing of two stateful steps with Python exception semantics:
if the first step raised, the exception propagates and the second step
does not run; state changes made before the raise persist. -/
def seqE {α β : Type} (r : St × Except PyExc α)
    (f : St → α → St × Except PyExc β) : St × Except PyExc β :=
  match r with
  | (s, Except.error e) => (s, Except.error e)
  | (s, Except.ok a) => f s a

/-- Embeds `Sim900.command` (lines 138-139): write the command plus a
carriage return to the transport and return the byte count. -/
def command (s : St) (c : Str) : St × Except PyExc Nat :=
  (emit s (Event.write (c ++ ['\r'])), Except.ok (c.length + 1))

/-- Embeds `Sim900.hung_up_call` (lines 223-224). -/
def hung_up_call (s : St) : St × Except PyExc Nat :=
  command s (str "ATH")

/-- Embeds `Sim900.read` (lines 125-127): read all currently buffered
bytes (the next element of the environment's read stream, empty when
exhausted), store them in `self.buffer` and split them into lines. -/
def read (s : St) : St × List Str :=
  let buf := s.world.reads.headD []
  ({ s with buffer := some buf,
            world := { s.world with reads := s.world.reads.tail } },
   parser_read buf)

/-- Embeds `Sim900.additional_function_call` (lines 229-230): the
overridable incoming-call handler; its invocation is recorded as a
`callHandler` event. -/
def additional_function_call (s : St) (c : Call) : St × Except PyExc Unit :=
  (emit s (Event.callHandler c), Except.ok ())

/-- Embeds `Sim900.additional_function_message` (lines 226-227): the
overridable message handler; its invocation is recorded as a
`msgHandler` event. -/
def additional_function_message (s : St) (m : Message) : St × Except PyExc Unit :=
  (emit s (Event.msgHandler m), Except.ok ())

/-- Loop body of `Sim900.incoming_call` (lines 234-237) over the lines
already filtered for `"CLIP:"`: strip double quotes, take the first
comma-separated field, whitespace-split it and take token 1 as the
phone number (raising `IndexError` when absent), then invoke the call
handler immediately with a freshly timestamped `Call`. -/
def incoming_call_line (s : St) (d : Str) : St × Except PyExc Unit :=
  match pyIndex (List.splitOn ',' (d.filter (fun c => c != '"'))) 0 with
  | Except.error e => (s, Except.error e)
  | Except.ok f0 =>
    match pyIndex ((List.splitOn ' ' f0).filter (fun x => !x.isEmpty)) 1 with
    | Except.error e => (s, Except.error e)
    | Except.ok phone => additional_function_call s ⟨phone, s.world.now⟩

/-- Iteration of `incoming_call`'s loop over the matching lines. -/
def incoming_call_go (s : St) : List Str → St × Except PyExc Unit
  | [] => (s, Except.ok ())
  | d :: rest =>
    seqE (incoming_call_line s d) (fun s1 _ => incoming_call_go s1 rest)

/-- Embeds `Sim900.incoming_call` (lines 232-237): hang up immediately,
then handle every line containing `"CLIP:"`.  The `f0.split()` of the
source splits on whitespace runs; the lines fed to it contain only
spaces, rendered here as a space-split with empty tokens dropped. -/
def incoming_call (s : St) (data : List Str) : St × Except PyExc Unit :=
  incoming_call_go (hung_up_call s).1
    (data.filter (fun x => decide ((str "CLIP:") <:+: x)))

/-- Loop body of `Sim900.incoming_ussd` (lines 252-258) over the lines
already filtered for `"CUSD:"`: take the second comma-separated field
(raising `IndexError` when absent), strip quotes, `decode` the hex
payload (raising `ValueError` on malformed hex), build a `Message` with
the `"USSD"` sentinel phone and the current time, and enqueue a deferred
message-handler invocation. -/
def incoming_ussd_line (s : St) (d : Str) : St × Except PyExc Unit :=
  match pyIndex (List.splitOn ',' d) 1 with
  | Except.error e => (s, Except.error e)
  | Except.ok f1 =>
    match decode (f1.filter (fun c => c != '"')) with
    | Except.error e => (s, Except.error e)
    | Except.ok text =>
      ({ s with taskQueue :=
           s.taskQueue ++ [TaskEntry.funcMessage ⟨ str "USSD", s.world.now, text⟩] },
       Except.ok ())

/-- Iteration of `incoming_ussd`'s loop over the matching lines. -/
def incoming_ussd_go (s : St) : List Str → St × Except PyExc Unit
  | [] => (s, Except.ok ())
  | d :: rest =>
    seqE (incoming_ussd_line s d) (fun s1 _ => incoming_ussd_go s1 rest)

/-- Embeds `Sim900.incoming_ussd` (lines 251-258). -/
def incoming_ussd (s : St) (data : List Str) : St × Except PyExc Unit :=
  incoming_ussd_go s (data.filter (fun x => decide ((str "CUSD:") <:+: x)))

/-- Loop body of `Sim900.incoming_message` (lines 245-249) over the
lines already filtered for `'+CMTI: "SM"'`: parse the storage index from
the second comma-separated field (`IndexError` when absent, `ValueError`
when not an integer), set the multiple-messages flag when the index is
positive, and enqueue a deferred fetch of that message. -/
def incoming_message_line (s : St) (d : Str) : St × Except PyExc Unit :=
  match pyIndex (List.splitOn ',' d) 1 with
  | Except.error e => (s, Except.error e)
  | Except.ok f =>
    match pyInt f with
    | none => (s, Except.error PyExc.valueError)
    | some i =>
      let s1 := if 0 < i then { s with manySms := true } else s
      ({ s1 with taskQueue := s1.taskQueue ++ [TaskEntry.incomingSms i] },
       Except.ok ())

/-- Iteration of `incoming_message`'s loop over the matching lines. -/
def incoming_message_go (s : St) : List Str → St × Except PyExc Unit
  | [] => (s, Except.ok ())
  | d :: rest =>
    seqE (incoming_message_line s d) (fun s1 _ => incoming_message_go s1 rest)

/-- Embeds `Sim900.incoming_message` (lines 244-249). -/
def incoming_message (s : St) (data : List Str) : St × Except PyExc Unit :=
  incoming_message_go s
    (data.filter (fun x => decide ((str "+CMTI: \"SM\"") <:+: x)))

/-- The inner helper `checking` of `checking_incoming_data` (lines
261-262): does any line of the batch contain the marker as a substring. -/
def checking (f : Str) (ls : List Str) : Bool :=
  ls.any (fun x => decide (f <:+: x))

/-- Embeds `Sim900.checking_incoming_data` (lines 260-277): the URC
classifier.  The four markers are checked in source order (ring, USSD,
message notification, power-down); each handler's exceptions propagate
and abort the later checks.  The power-down marker sets `self.npd`,
clears `self.status` and makes the classifier return `True`. -/
def checking_incoming_data (s : St) (st : List Str) : St × Except PyExc Bool :=
  seqE (if checking (str "RING") st then incoming_call s st else (s, Except.ok ()))
    (fun s1 _ =>
      seqE (if checking (str "CUSD:") st then incoming_ussd s1 st else (s1, Except.ok ()))
        (fun s2 _ =>
          seqE (if checking (str "+CMTI: \"SM\"") st then incoming_message s2 st
                else (s2, Except.ok ()))
            (fun s3 _ =>
              if checking (str "NORMAL POWER DOWN") st then
                ({ s3 with npd := true, status := false }, Except.ok true)
              else (s3, Except.ok false))))

/-- Embeds `Sim900.parser_command` (lines 129-136): first run the URC
classifier over the batch (its boolean result is discarded, its
exceptions propagate), then classify: an empty batch raises
`Sim900NoResponse`; a batch whose last line is `"ERROR"` raises
`Sim900Error(self.buffer)`; otherwise return the batch without its
first (echo) and last (status) lines, Python's `data[1:-1]`. -/
def parser_command (s : St) (data : List Str) : St × Except PyExc (List Str) :=
  seqE (checking_incoming_data s data)
    (fun s1 _ =>
      if data.length = 0 then (s1, Except.error PyExc.noResponse)
      else if data.getLast? = some (str "ERROR") then
        (s1, Except.error (PyExc.commandError s1.buffer))
      else (s1, Except.ok ((data.drop 1).dropLast)))

/-- Embeds `Sim900.send_command` (lines 141-144): write the command,
sleep for the fixed response wait (`self.time_response` units, recorded
in tenths), read the reply and classify it. -/
def send_command (s : St) (c : Str) : St × Except PyExc (List Str) :=
  let s1 := (command s c).1
  let s2 := emit s1 (Event.sleep (10 * s1.time_response))
  parser_command (read s2).1 (read s2).2

/-- Decimal rendering of an integer, as Python string interpolation
produces it. -/
def intStr (i : Int) : Str :=
  if i < 0 then '-' :: Nat.toDigits 10 i.natAbs else Nat.toDigits 10 i.natAbs

/-- Embeds `Sim900.del_sms` (lines 214-215). -/
def del_sms (s : St) (i : Int) : St × Except PyExc Unit :=
  seqE (send_command s (str "AT+CMGD=" ++ intStr i)) (fun s1 _ => (s1, Except.ok ()))

/-- Embeds `Sim900.get_sms` (lines 217-221): read one message with
`AT+CMGR=<id>`, take response line 1 (raising `IndexError` when the
interior has fewer than two lines), feed it to the reassembly buffer via
the external codec, optionally delete the message, and return the
buffer's verdict. -/
def get_sms (s : St) (i : Int) : St × Except PyExc (Option Message) :=
  seqE (send_command s (str "AT+CMGR=" ++ intStr i))
    (fun s1 lines =>
      seqE (s1, pyIndex lines 1)
        (fun s1 pdu =>
          let r := AdditionMessages.call s1.am (s1.world.dec pdu)
          let s2 := { s1 with am := r.2 }
          if s2.auto_del_message then
            seqE (del_sms s2 i) (fun s3 _ => (s3, Except.ok r.1))
          else (s2, Except.ok r.1)))

/-- Embeds the private task body `Sim900.__incoming_sms` (lines
239-242): fetch the message and, if decoding/reassembly produced a
complete `Message`, enqueue the message handler on it. -/
def incoming_sms_task (s : St) (i : Int) : St × Except PyExc Unit :=
  seqE (get_sms s i)
    (fun s1 msg =>
      match msg with
      | none => (s1, Except.ok ())
      | some m =>
        ({ s1 with taskQueue := s1.taskQueue ++ [TaskEntry.funcMessage m] },
         Except.ok ()))

/-- Invocation `task[0](*task[1])` of a dequeued entry. -/
def execTask (s : St) : TaskEntry → St × Except PyExc Unit
  | TaskEntry.incomingSms i => incoming_sms_task s i
  | TaskEntry.funcMessage m => additional_function_message s m

/-- Embeds `Sim900.run_task` (lines 279-285).  The source wraps both the
`popleft()` and the invocation in one `try ... except IndexError`: an
empty queue reports `False` ("no work done"), a successful invocation
reports `True`, an `IndexError` raised *inside the invoked task* is also
caught and reported as `False`, and every other exception propagates
with the head entry already removed. -/
def run_task (s : St) : St × Except PyExc Bool :=
  match s.taskQueue with
  | [] => (s, Except.ok false)
  | t :: rest =>
    match execTask { s with taskQueue := rest } t with
    | (s1, Except.ok _) => (s1, Except.ok true)
    | (s1, Except.error PyExc.indexError) => (s1, Except.ok false)
    | (s1, Except.error e) => (s1, Except.error e)

/-- The drain loop `while len(self._task_queue) > 0: self.run_task()` of
`Sim900.run` (lines 289-290), with explicit fuel: `none` means the fuel
was exhausted before the queue emptied (the queue can grow while
draining).  Exceptions from `run_task` propagate. -/
def drain : Nat → St → Option (St × Except PyExc Unit)
  | 0, _ => none
  | fuel + 1, s =>
    if s.taskQueue.isEmpty then some (s, Except.ok ())
    else
      match run_task s with
      | (s1, Except.error e) => some (s1, Except.error e)
      | (s1, Except.ok _) => drain fuel s1

/-- The `self._connect.in_waiting > 0` poll: consumes the next answer of
the environment's availability stream (`false` when exhausted). -/
def inWaiting (s : St) : St × Bool :=
  ({ s with world := { s.world with avail := s.world.avail.tail } },
   s.world.avail.headD false)

/-- The idle wait `sleep(0.5)` at the end of a loop iteration. -/
def sleepIdle (s : St) : St :=
  emit s (Event.sleep 5)

/-- One iteration of the body of `Sim900.run` (lines 287-294): drain the
task queue, poll the transport, and when bytes are available read and
classify them — if the classifier reports power-down the loop `break`s
immediately (result `true`), skipping the idle wait; otherwise the
iteration ends with the 0.5-unit idle sleep (result `false`).  `none`
means the drain ran out of fuel. -/
def runIter (fd : Nat) (s : St) : Option (St × Except PyExc Bool) :=
  match drain fd s with
  | none => none
  | some (s1, Except.error e) => some (s1, Except.error e)
  | some (s1, Except.ok _) =>
    if (inWaiting s1).2 then
      match checking_incoming_data (read (inWaiting s1).1).1 (read (inWaiting s1).1).2 with
      | (s4, Except.error e) => some (s4, Except.error e)
      | (s4, Except.ok true) => some (s4, Except.ok true)
      | (s4, Except.ok false) => some (sleepIdle s4, Except.ok false)
    else some (sleepIdle (inWaiting s1).1, Except.ok false)

/-- Embeds `Sim900.run` (lines 287-294): iterate while `self.npd` is
false; an iteration that `break`s (power-down classified) or raises ends
the loop.  `fuel` bounds the number of iterations, `fd` the drain steps
per iteration; `none` means fuel ran out. -/
def run : Nat → Nat → St → Option (St × Except PyExc Unit)
  | 0, _, _ => none
  | fuel + 1, fd, s =>
    if s.npd then some (s, Except.ok ())
    else
      match runIter fd s with
      | none => none
      | some (s1, Except.error e) => some (s1, Except.error e)
      | some (s1, Except.ok true) => some (s1, Except.ok ())
      | some (s1, Except.ok false) => run fuel fd s1

/-- Decidable equality for `Except` results, used to settle concrete
runs of the modelled operations. -/
instance {ε α : Type} [DecidableEq ε] [DecidableEq α] : DecidableEq (Except ε α) := fun a b =>
  match a, b with
  | Except.ok x, Except.ok y =>
    if h : x = y then isTrue (by rw [h]) else isFalse (by intro hc; cases hc; exact h rfl)
  | Except.error x, Except.error y =>
    if h : x = y then isTrue (by rw [h]) else isFalse (by intro hc; cases hc; exact h rfl)
  | Except.ok _, Except.error _ => isFalse (by intro hc; cases hc)
  | Except.error _, Except.ok _ => isFalse (by intro hc; cases hc)

/-- One modelled operation of the session, used to quantify over "any
operation" in the flag-monotonicity claims.  Covers every modelled
state-mutating entry point of the `Sim900` class. -/
inductive Op where
  | commandOp (c : Str) : Op
  | readAllOp : Op
  | parserCommandOp (data : List Str) : Op
  | sendCommandOp (c : Str) : Op
  | hungUpOp : Op
  | incomingCallOp (data : List Str) : Op
  | incomingUssdOp (data : List Str) : Op
  | incomingMessageOp (data : List Str) : Op
  | checkingOp (data : List Str) : Op
  | getSmsOp (i : Int) : Op
  | delSmsOp (i : Int) : Op
  | runTaskOp : Op
  | execTaskOp (t : TaskEntry) : Op
  | drainOp (fuel : Nat) : Op
  | runIterOp (fuel : Nat) : Op
  | runOp (fuel fd : Nat) : Op

/-- The state reached by running one modelled operation (its return
value is discarded; for the fuelled loops, running out of fuel leaves
the state unobserved and is mapped to the input state). -/
def applyOp (s : St) : Op → St
  | Op.commandOp c => (command s c).1
  | Op.readAllOp => (read s).1
  | Op.parserCommandOp data => (parser_command s data).1
  | Op.sendCommandOp c => (send_command s c).1
  | Op.hungUpOp => (hung_up_call s).1
  | Op.incomingCallOp data => (incoming_call s data).1
  | Op.incomingUssdOp data => (incoming_ussd s data).1
  | Op.incomingMessageOp data => (incoming_message s data).1
  | Op.checkingOp data => (checking_incoming_data s data).1
  | Op.getSmsOp i => (get_sms s i).1
  | Op.delSmsOp i => (del_sms s i).1
  | Op.runTaskOp => (run_task s).1
  | Op.execTaskOp t => (execTask s t).1
  | Op.drainOp fuel =>
    match drain fuel s with
    | none => s
    | some r => r.1
  | Op.runIterOp fuel =>
    match runIter fuel s with
    | none => s
    | some r => r.1
  | Op.runOp fuel fd =>
    match run fuel fd s with
    | none => s
    | some r => r.1

/-- Relation between a state and a successor state reached by the
modelled operations: the power-down flag and the multiple-messages flag
never go back from `true` to `false`, and no `sleep(0.5)` idle wait was
recorded (the last component is what lets the run-loop claims show the
power-down `break` skips the idle wait; only the run loop itself emits
`Event.sleep 5`). -/
def stepOK (s s' : St) : Prop :=
  (s.npd = true → s'.npd = true) ∧
  (s.manySms = true → s'.manySms = true) ∧
  s'.events.count (Event.sleep 5) = s.events.count (Event.sleep 5)

/-- Relation between a state and a successor: the two flags are
monotone.  `runIter` and `run` satisfy this weaker relation (they do
emit idle waits). -/
def flagsOK (s s' : St) : Prop :=
  (s.npd = true → s'.npd = true) ∧ (s.manySms = true → s'.manySms = true)

/-- A baseline environment with nothing to read, no bytes pending, clock
zero and a codec that rejects every PDU. -/
def w0 : World := ⟨[], [], 0, fun _ => Except.error ()⟩

/-- A fresh session in the baseline environment. -/
def s0 : St := initSt w0

/-- Environment for the run_task counterexample: the reply to
`AT+CMGR=1` has a one-line interior, so `send_command(...)[1]` raises
`IndexError` inside the invoked task. -/
def w1 : World := ⟨[ str "AT+CMGR=1\r\nx\r\nOK"], [], 0, fun _ => Except.error ()⟩

/-- Session whose queue holds one deferred message fetch, in `w1`. -/
def c1cSt : St := { initSt w1 with taskQueue := [TaskEntry.incomingSms 1] }

/-- Environment for the run_task witness: the read comes back empty, so
the command inside the task fails with `Sim900NoResponse`. -/
def w2 : World := ⟨[[]], [], 0, fun _ => Except.error ()⟩

/-- Session whose queue holds one deferred message fetch, in `w2`. -/
def c1wSt : St := { initSt w2 with taskQueue := [TaskEntry.incomingSms 2] }

/-- State after the task of `c1wSt` has been invoked and failed with
`Sim900NoResponse`: the head entry is gone, the command was written, the
response wait elapsed and the empty read is in the buffer. -/
def c1wResSt : St :=
  { c1wSt with
    taskQueue := [],
    buffer := some [],
    world := { w2 with reads := [] },
    events := [Event.write (str "AT+CMGR=2\r"), Event.sleep 30] }

/-- First fragment of the C2 counterexample: reference 7, part 1 of a
declared total of 3. -/
def c2f1 : Decoded := ⟨ str "P1", 21, str "A", some ⟨7, 1, 3⟩⟩

/-- Second fragment of the C2 counterexample: reference 7, part 2, but
now declaring a total of 2. -/
def c2f2 : Decoded := ⟨ str "P2", 22, str "B", some ⟨7, 2, 2⟩⟩

/-- First delivered fragment of the C6 scenario: part 2 of 3, text "B". -/
def c6f1 : Decoded := ⟨ str "S1", 11, str "B", some ⟨9, 2, 3⟩⟩

/-- Second delivered fragment of the C6 scenario: part 1 of 3, text "A". -/
def c6f2 : Decoded := ⟨ str "S2", 12, str "A", some ⟨9, 1, 3⟩⟩

/-- Third delivered fragment of the C6 scenario: part 3 of 3, text "C". -/
def c6f3 : Decoded := ⟨ str "S3", 13, str "C", some ⟨9, 3, 3⟩⟩

/-- A batch line carrying a positive message-notification index. -/
def cmtiPosLine : Str := str "+CMTI: \"SM\",1"

/-- Does a line carry a positive storage index in its second
comma-separated field (the way `incoming_message` parses it)? -/
def posStorageIndex (d : Str) : Bool :=
  match pyIndex (List.splitOn ',' d) 1 with
  | Except.error _ => false
  | Except.ok f =>
    match pyInt f with
    | none => false
    | some i => decide (0 < i)

/-- The two lines of the C8 end-to-end scenario: a ring notification and
a caller-id line. -/
def c8batch : List Str := [ str "RING", str "+CLIP: \"+15551234567\",145,,,,0"]

/-- The two lines of the C7 counterexample: a malformed USSD response
line (no comma, so its handler raises `IndexError`) ahead of the
power-down notice. -/
def c7batch : List Str := [ str "CUSD: x", str "NORMAL POWER DOWN"]

/-- The single line of the C3 counterexample: a message notification
with no comma-separated index, making the URC classifier raise
`IndexError` before `parser_command` classifies the batch. -/
def c3batch : List Str := [ str "+CMTI: \"SM\""]

/-- Session used by the C3 witness, with a diagnostic buffer present. -/
def c3wSt : St := { s0 with buffer := some (str "AT\r\nERROR") }

/-- Environment for the C7 witness: one pending availability poll and a
read buffer holding the power-down notice. -/
def c7wW : World := ⟨[ str "NORMAL POWER DOWN"], [true], 0, fun _ => Except.error ()⟩

/-- Fresh session in `c7wW`. -/
def c7wSt : St := initSt c7wW

/-- State of the C7 witness after its run-loop iteration polled, read
the power-down notice and classified it: the availability answer and the
read buffer are consumed, the buffer holds the notice, the power-down
flag is set and the connection status cleared.  No event was emitted —
in particular no idle wait. -/
def c7wResSt : St :=
  { c7wSt with
    buffer := some (str "NORMAL POWER DOWN"),
    world := ⟨[], [], 0, fun _ => Except.error ()⟩,
    npd := true,
    status := false }


theorem stepOK_refl (s : St) : stepOK s s :=
  ⟨fun a => a, fun a => a, rfl⟩

theorem stepOK_trans {s1 s2 s3 : St} (h1 : stepOK s1 s2) (h2 : stepOK s2 s3) :
    stepOK s1 s3 :=
  ⟨fun a => h2.1 (h1.1 a), fun a => h2.2.1 (h1.2.1 a), h2.2.2.trans h1.2.2⟩

theorem stepOK.flags {s1 s2 : St} (h : stepOK s1 s2) : flagsOK s1 s2 :=
  ⟨h.1, h.2.1⟩

theorem flagsOK_refl (s : St) : flagsOK s s :=
  ⟨fun a => a, fun a => a⟩

theorem flagsOK_trans {s1 s2 s3 : St} (h1 : flagsOK s1 s2) (h2 : flagsOK s2 s3) :
    flagsOK s1 s3 :=
  ⟨fun a => h2.1 (h1.1 a), fun a => h2.2 (h1.2 a)⟩

theorem emit_stepOK (s : St) (e : Event) (h : e ≠ Event.sleep 5) :
    stepOK s (emit s e) := by
  refine ⟨fun a => a, fun a => a, ?_⟩
  simp only [emit, List.count_append, List.count_singleton]
  have hb : (e == Event.sleep 5) = false := beq_eq_false_iff_ne.mpr h
  simp [hb]

theorem seqE_stepOK {α β : Type} (s : St) (r : St × Except PyExc α)
    (f : St → α → St × Except PyExc β)
    (h1 : stepOK s r.1)
    (h2 : ∀ s1 a, r = (s1, Except.ok a) → stepOK s1 (f s1 a).1) :
    stepOK s (seqE r f).1 := by
  obtain ⟨s1, r2⟩ := r
  cases r2 with
  | error e => simpa [seqE] using h1
  | ok a => exact stepOK_trans h1 (h2 s1 a rfl)

theorem command_stepOK (s : St) (c : Str) : stepOK s (command s c).1 :=
  emit_stepOK s _ (by intro hc; cases hc)

theorem hung_up_stepOK (s : St) : stepOK s (hung_up_call s).1 :=
  command_stepOK s _

theorem read_stepOK (s : St) : stepOK s (read s).1 :=
  ⟨fun a => a, fun a => a, rfl⟩

theorem afc_stepOK (s : St) (c : Call) : stepOK s (additional_function_call s c).1 :=
  emit_stepOK s _ (by intro hc; cases hc)

theorem afm_stepOK (s : St) (m : Message) : stepOK s (additional_function_message s m).1 :=
  emit_stepOK s _ (by intro hc; cases hc)

theorem incoming_call_line_stepOK (s : St) (d : Str) :
    stepOK s (incoming_call_line s d).1 := by
  unfold incoming_call_line
  split
  · exact stepOK_refl s
  · split
    · exact stepOK_refl s
    · exact afc_stepOK s _

theorem incoming_call_go_stepOK (ls : List Str) :
    ∀ s : St, stepOK s (incoming_call_go s ls).1 := by
  induction ls with
  | nil => exact fun s => stepOK_refl s
  | cons d rest ih =>
    intro s
    exact seqE_stepOK s _ _ (incoming_call_line_stepOK s d) (fun s1 a _ => ih s1)

theorem incoming_call_stepOK (s : St) (data : List Str) :
    stepOK s (incoming_call s data).1 :=
  stepOK_trans (hung_up_stepOK s) (incoming_call_go_stepOK _ _)

theorem incoming_ussd_line_stepOK (s : St) (d : Str) :
    stepOK s (incoming_ussd_line s d).1 := by
  unfold incoming_ussd_line
  split
  · exact stepOK_refl s
  · split
    · exact stepOK_refl s
    · exact ⟨fun a => a, fun a => a, rfl⟩

theorem incoming_ussd_go_stepOK (ls : List Str) :
    ∀ s : St, stepOK s (incoming_ussd_go s ls).1 := by
  induction ls with
  | nil => exact fun s => stepOK_refl s
  | cons d rest ih =>
    intro s
    exact seqE_stepOK s _ _ (incoming_ussd_line_stepOK s d) (fun s1 a _ => ih s1)

theorem incoming_ussd_stepOK (s : St) (data : List Str) :
    stepOK s (incoming_ussd s data).1 :=
  incoming_ussd_go_stepOK _ _

theorem incoming_message_line_stepOK (s : St) (d : Str) :
    stepOK s (incoming_message_line s d).1 := by
  unfold incoming_message_line
  split
  · exact stepOK_refl s
  · split
    · exact stepOK_refl s
    · rename_i v hv
      by_cases hi : (0 : Int) < v
      · exact ⟨fun a => by simpa [hi] using a, fun _ => by simp [hi], by simp [hi]⟩
      · exact ⟨fun a => by simpa [hi] using a, fun a => by simpa [hi] using a, by simp [hi]⟩

theorem incoming_message_go_stepOK (ls : List Str) :
    ∀ s : St, stepOK s (incoming_message_go s ls).1 := by
  induction ls with
  | nil => exact fun s => stepOK_refl s
  | cons d rest ih =>
    intro s
    exact seqE_stepOK s _ _ (incoming_message_line_stepOK s d) (fun s1 a _ => ih s1)

theorem incoming_message_stepOK (s : St) (data : List Str) :
    stepOK s (incoming_message s data).1 :=
  incoming_message_go_stepOK _ _

theorem checking_stepOK (s : St) (data : List Str) :
    stepOK s (checking_incoming_data s data).1 := by
  unfold checking_incoming_data
  refine seqE_stepOK s _ _ ?_ (fun s1 a _ => ?_)
  · split
    · exact incoming_call_stepOK s data
    · exact stepOK_refl s
  refine seqE_stepOK s1 _ _ ?_ (fun s2 a _ => ?_)
  · split
    · exact incoming_ussd_stepOK s1 data
    · exact stepOK_refl s1
  refine seqE_stepOK s2 _ _ ?_ (fun s3 a _ => ?_)
  · split
    · exact incoming_message_stepOK s2 data
    · exact stepOK_refl s2
  split
  · exact ⟨fun _ => rfl, fun a => a, rfl⟩
  · exact stepOK_refl s3

theorem parser_command_stepOK (s : St) (data : List Str) :
    stepOK s (parser_command s data).1 := by
  unfold parser_command
  refine seqE_stepOK s _ _ (checking_stepOK s data) (fun s1 _ _ => ?_)
  split
  · exact stepOK_refl s1
  split
  · exact stepOK_refl s1
  · exact stepOK_refl s1

theorem send_command_stepOK (s : St) (c : Str) :
    stepOK s (send_command s c).1 := by
  have he : send_command s c =
      parser_command
        (read (emit (command s c).1
          (Event.sleep (10 * (command s c).1.time_response)))).1
        (read (emit (command s c).1
          (Event.sleep (10 * (command s c).1.time_response)))).2 := rfl
  rw [he]
  refine stepOK_trans (command_stepOK s c) ?_
  refine stepOK_trans (emit_stepOK _ (Event.sleep (10 * (command s c).1.time_response)) ?_) ?_
  · intro hc
    injection hc with h
    omega
  exact stepOK_trans (read_stepOK _) (parser_command_stepOK _ _)

theorem del_sms_stepOK (s : St) (i : Int) : stepOK s (del_sms s i).1 :=
  seqE_stepOK s _ _ (send_command_stepOK s _) (fun s1 _ _ => stepOK_refl s1)

theorem get_sms_stepOK (s : St) (i : Int) : stepOK s (get_sms s i).1 := by
  unfold get_sms
  refine seqE_stepOK s _ _ (send_command_stepOK s _) (fun s1 lines _ => ?_)
  refine seqE_stepOK s1 _ _ (stepOK_refl s1) (fun s1 pdu _ => ?_)
  dsimp only
  split
  · refine seqE_stepOK _ _ _ ?_ (fun s3 a _ => stepOK_refl s3)
    exact stepOK_trans
      (⟨fun a => a, fun a => a, rfl⟩ :
        stepOK s1 ({ s1 with am := (AdditionMessages.call s1.am (s1.world.dec pdu)).2 } : St))
      (del_sms_stepOK _ i)
  · exact ⟨fun a => a, fun a => a, rfl⟩

theorem incoming_sms_task_stepOK (s : St) (i : Int) :
    stepOK s (incoming_sms_task s i).1 := by
  unfold incoming_sms_task
  refine seqE_stepOK s _ _ (get_sms_stepOK s i) (fun s1 msg _ => ?_)
  cases msg with
  | none => exact stepOK_refl s1
  | some m => exact ⟨fun a => a, fun a => a, rfl⟩

theorem execTask_stepOK (s : St) (t : TaskEntry) : stepOK s (execTask s t).1 := by
  cases t with
  | incomingSms i => exact incoming_sms_task_stepOK s i
  | funcMessage m => exact afm_stepOK s m

theorem run_task_stepOK (s : St) : stepOK s (run_task s).1 := by
  unfold run_task
  split
  · exact stepOK_refl s
  · rename_i t rest hq
    have h1 := stepOK_trans
      (⟨fun a => a, fun a => a, rfl⟩ : stepOK s ({ s with taskQueue := rest } : St))
      (execTask_stepOK { s with taskQueue := rest } t)
    split
    · rename_i s1 a heq
      rw [heq] at h1
      exact h1
    · rename_i s1 heq
      rw [heq] at h1
      exact h1
    · rename_i s1 e hne heq
      rw [heq] at h1
      exact h1

theorem drain_stepOK : ∀ (fuel : Nat) (s : St) (r : St × Except PyExc Unit),
    drain fuel s = some r → stepOK s r.1 := by
  intro fuel
  induction fuel with
  | zero => intro s r h; cases h
  | succ fuel ih =>
    intro s r h
    rw [drain] at h
    by_cases hq : s.taskQueue.isEmpty
    · rw [if_pos hq] at h
      cases h
      exact stepOK_refl s
    rw [if_neg hq] at h
    have h1 := run_task_stepOK s
    cases ht : run_task s with
    | mk s1 r1 =>
      rw [ht] at h h1
      cases r1 with
      | error e => cases h; exact h1
      | ok b => exact stepOK_trans h1 (ih s1 r h)

theorem sleepIdle_flagsOK (s : St) : flagsOK s (sleepIdle s) :=
  ⟨fun a => a, fun a => a⟩

theorem runIter_flagsOK (fd : Nat) (s : St) (r : St × Except PyExc Bool)
    (h : runIter fd s = some r) : flagsOK s r.1 := by
  rw [runIter] at h
  cases hd : drain fd s with
  | none => rw [hd] at h; cases h
  | some r1 =>
    rw [hd] at h
    have h1 := (drain_stepOK fd s r1 hd).flags
    obtain ⟨s1, r2⟩ := r1
    cases r2 with
    | error e => cases h; exact h1
    | ok u =>
      simp only at h
      by_cases hw : (inWaiting s1).2
      · rw [if_pos hw] at h
        have h2 : flagsOK s1 (inWaiting s1).1 := ⟨fun a => a, fun a => a⟩
        have h3 := (read_stepOK (inWaiting s1).1).flags
        have h4 := (checking_stepOK (read (inWaiting s1).1).1 (read (inWaiting s1).1).2).flags
        have h5 := flagsOK_trans h1 (flagsOK_trans h2 (flagsOK_trans h3 h4))
        cases hc : checking_incoming_data (read (inWaiting s1).1).1 (read (inWaiting s1).1).2 with
        | mk s4 r4 =>
          rw [hc] at h h5
          cases r4 with
          | error e => cases h; exact h5
          | ok b =>
            cases b with
            | true => cases h; exact h5
            | false => cases h; exact flagsOK_trans h5 (sleepIdle_flagsOK s4)
      · rw [if_neg hw] at h
        cases h
        exact flagsOK_trans h1 (flagsOK_trans ⟨fun a => a, fun a => a⟩ (sleepIdle_flagsOK _))

theorem run_flagsOK : ∀ (fuel fd : Nat) (s : St) (r : St × Except PyExc Unit),
    run fuel fd s = some r → flagsOK s r.1 := by
  intro fuel
  induction fuel with
  | zero => intro fd s r h; cases h
  | succ fuel ih =>
    intro fd s r h
    rw [run] at h
    by_cases hn : s.npd
    · rw [if_pos hn] at h
      cases h
      exact flagsOK_refl s
    rw [if_neg hn] at h
    cases hi : runIter fd s with
    | none => rw [hi] at h; cases h
    | some r1 =>
      rw [hi] at h
      have h1 := runIter_flagsOK fd s r1 hi
      obtain ⟨s1, r2⟩ := r1
      cases r2 with
      | error e => cases h; exact h1
      | ok b =>
        cases b with
        | true => cases h; exact h1
        | false => exact flagsOK_trans h1 (ih fd s1 r h)

theorem applyOp_flagsOK (s : St) (op : Op) : flagsOK s (applyOp s op) := by
  cases op with
  | commandOp c => exact (command_stepOK s c).flags
  | readAllOp => exact (read_stepOK s).flags
  | parserCommandOp data => exact (parser_command_stepOK s data).flags
  | sendCommandOp c => exact (send_command_stepOK s c).flags
  | hungUpOp => exact (hung_up_stepOK s).flags
  | incomingCallOp data => exact (incoming_call_stepOK s data).flags
  | incomingUssdOp data => exact (incoming_ussd_stepOK s data).flags
  | incomingMessageOp data => exact (incoming_message_stepOK s data).flags
  | checkingOp data => exact (checking_stepOK s data).flags
  | getSmsOp i => exact (get_sms_stepOK s i).flags
  | delSmsOp i => exact (del_sms_stepOK s i).flags
  | runTaskOp => exact (run_task_stepOK s).flags
  | execTaskOp t => exact (execTask_stepOK s t).flags
  | drainOp fuel =>
    simp only [applyOp]
    cases hd : drain fuel s with
    | none => exact flagsOK_refl s
    | some r => exact (drain_stepOK fuel s r hd).flags
  | runIterOp fuel =>
    simp only [applyOp]
    cases hi : runIter fuel s with
    | none => exact flagsOK_refl s
    | some r => exact runIter_flagsOK fuel s r hi
  | runOp fuel fd =>
    simp only [applyOp]
    cases hr : run fuel fd s with
    | none => exact flagsOK_refl s
    | some r => exact run_flagsOK fuel fd s r hr

theorem incoming_message_go_many (ls : List Str) :
    ∀ (s s' : St), incoming_message_go s ls = (s', Except.ok ()) →
      s'.manySms = (s.manySms || ls.any posStorageIndex) := by
  induction ls with
  | nil =>
    intro s s' h
    rw [incoming_message_go] at h
    injection h with h1 h2
    subst h1
    simp
  | cons d rest ih =>
    intro s s' h
    rw [incoming_message_go] at h
    cases h1 : pyIndex (List.splitOn ',' d) 1 with
    | error e => simp [incoming_message_line, h1, seqE] at h
    | ok f =>
      cases h2 : pyInt f with
      | none => simp [incoming_message_line, h1, h2, seqE] at h
      | some i =>
        simp only [incoming_message_line, h1, h2, seqE] at h
        have hrec := ih _ _ h
        rw [hrec]
        simp only [List.any_cons, posStorageIndex, h1, h2]
        by_cases hi : (0 : Int) < i
        · simp [hi]
        · simp [hi]

/-- C1: the claim says every exception raised by an invoked deferred task
propagates out of `run_task`.  The `try` in the source wraps the
invocation as well as the `popleft`, so a task that itself raises
`IndexError` is swallowed: with a queued message fetch whose modem reply
has a one-line interior, `send_command(...)[1]` raises `IndexError` and
`run_task` returns `False` instead of propagating it. -/
theorem c1_counterexample :
    (run_task c1cSt).2 = Except.ok false ∧
    (run_task c1cSt).2 ≠ Except.error PyExc.indexError := by
  constructor
  · rfl
  · decide

/-- C1 (amended): `run_task` on an empty queue reports no work done;
otherwise it removes the head entry and invokes it, reporting success,
swallowing an `IndexError` raised by the invocation (reported as no work
done), and propagating every other exception to the caller. -/
theorem c1_theorem :
    (∀ s : St, s.taskQueue = [] → run_task s = (s, Except.ok false)) ∧
    (∀ (s : St) (t : TaskEntry) (rest : List TaskEntry) (s1 : St) (u : Unit),
      s.taskQueue = t :: rest →
      execTask { s with taskQueue := rest } t = (s1, Except.ok u) →
      run_task s = (s1, Except.ok true)) ∧
    (∀ (s : St) (t : TaskEntry) (rest : List TaskEntry) (s1 : St),
      s.taskQueue = t :: rest →
      execTask { s with taskQueue := rest } t = (s1, Except.error PyExc.indexError) →
      run_task s = (s1, Except.ok false)) ∧
    (∀ (s : St) (t : TaskEntry) (rest : List TaskEntry) (s1 : St) (e : PyExc),
      s.taskQueue = t :: rest →
      execTask { s with taskQueue := rest } t = (s1, Except.error e) →
      e ≠ PyExc.indexError →
      run_task s = (s1, Except.error e)) := by
  refine ⟨?_, ?_, ?_, ?_⟩
  · intro s hq
    simp [run_task, hq]
  · intro s t rest s1 u hq he
    simp [run_task, hq, he]
  · intro s t rest s1 hq he
    simp [run_task, hq, he]
  · intro s t rest s1 e hq he hne
    cases e with
    | indexError => exact absurd rfl hne
    | valueError => simp [run_task, hq, he]
    | noResponse => simp [run_task, hq, he]
    | commandError buf => simp [run_task, hq, he]

/-- C1 witness: concrete instances of the amended claim — draining an
empty queue reports no work done, and a task failing with
`Sim900NoResponse` (not `IndexError`) propagates it out of `run_task`
with the head entry removed. -/
theorem c1_witness :
    run_task s0 = (s0, Except.ok false) ∧
    run_task c1wSt = (c1wResSt, Except.error PyExc.noResponse) :=
  ⟨c1_theorem.1 s0 rfl,
   c1_theorem.2.2.2 c1wSt (TaskEntry.incomingSms 2) [] c1wResSt PyExc.noResponse rfl rfl
     (by decide)⟩

theorem am_call_udh (am : AMState) (d : Decoded) (h : Udh) (hu : d.udh = some h) :
    AdditionMessages.call am (Except.ok d) =
      (if (insertPart (lookupAM am h.reference) h.number d.text).length = h.parts then
        (some ⟨d.number, d.time,
          ((insertPart (lookupAM am h.reference) h.number d.text).map Prod.snd).flatten⟩,
         removeAM am h.reference)
      else
        (none, setAM am h.reference
          (insertPart (lookupAM am h.reference) h.number d.text))) := by
  simp only [AdditionMessages.call, hu]

/-- C2: the claim says the entry's declared total part count is fixed by
the first fragment seen for the reference id.  The source compares the
stored-part count against the `parts` field of the *current* fragment
(`d[0].parts`), so a later fragment's declaration decides completion:
after a first fragment declaring 3 parts for reference 7, a second
fragment declaring 2 parts completes the entry with only 2 stored
indices, which the claim forbids. -/
theorem c2_counterexample :
    ((AdditionMessages.call (AdditionMessages.call [] (Except.ok c2f1)).2
        (Except.ok c2f2)).1).isSome = true ∧
    (insertPart (lookupAM (AdditionMessages.call [] (Except.ok c2f1)).2 7) 2
        (str "B")).length = 2 ∧
    c2f1.udh = some ⟨7, 1, 3⟩ := by
  decide

/-- C2 (amended): for a fragment carrying a fragmentation header, the
entry completes (a `Message` is returned and the entry is popped)
exactly when the number of stored part indices equals the totalParts
declared by the *currently ingested* fragment, whatever earlier
fragments declared. -/
theorem c2_theorem (am : AMState) (d : Decoded) (h : Udh) (hu : d.udh = some h) :
    (((AdditionMessages.call am (Except.ok d)).1).isSome = true ↔
      (insertPart (lookupAM am h.reference) h.number d.text).length = h.parts) ∧
    ((insertPart (lookupAM am h.reference) h.number d.text).length = h.parts →
      ∀ e ∈ (AdditionMessages.call am (Except.ok d)).2, e.1 ≠ h.reference) := by
  rw [am_call_udh am d h hu]
  by_cases hl : (insertPart (lookupAM am h.reference) h.number d.text).length = h.parts
  · refine ⟨by simp [hl], fun _ e he => ?_⟩
    rw [if_pos hl] at he
    simp only [removeAM, List.mem_filter] at he
    simpa using he.2
  · exact ⟨by simp [hl], fun hc => absurd hc hl⟩

/-- C2 witness: a single-part fragment (declared total 1) completes at
once, and its reference id is no longer present afterwards. -/
theorem c2_witness :
    (((AdditionMessages.call []
        (Except.ok (⟨ str "W", 5, str "T", some ⟨3, 1, 1⟩⟩ : Decoded))).1).isSome = true ↔
      (insertPart (lookupAM [] 3) 1 (str "T")).length = 1) ∧
    ((insertPart (lookupAM [] 3) 1 (str "T")).length = 1 →
      ∀ e ∈ (AdditionMessages.call []
          (Except.ok (⟨ str "W", 5, str "T", some ⟨3, 1, 1⟩⟩ : Decoded))).2, e.1 ≠ 3) :=
  c2_theorem [] ⟨ str "W", 5, str "T", some ⟨3, 1, 1⟩⟩ ⟨3, 1, 1⟩ rfl

/-- C4: a fragment whose byte-level decode raised `EncodingError` is
silently dropped: the ingest returns no `Message`, the reassembly state
is exactly unchanged, and no exception escapes (the result type of the
modelled ingest carries no error at all, mirroring the
`except EncodingError: pass` that converts the failure into a plain
`None` return). -/
theorem c4_theorem (am : AMState) :
    AdditionMessages.call am (Except.error ()) = (none, am) := rfl

/-- C6: three fragments of one reference id with declared total 3,
delivered in part order 2, 1, 3 with texts "B", "A", "C": the first two
ingests return nothing-yet, the third returns a `Message` whose text is
the parts joined in ascending part order ("ABC"), built from the last
fragment's sender and timestamp. -/
theorem c6_theorem :
    (AdditionMessages.call [] (Except.ok c6f1)).1 = none ∧
    (AdditionMessages.call (AdditionMessages.call [] (Except.ok c6f1)).2
        (Except.ok c6f2)).1 = none ∧
    (AdditionMessages.call (AdditionMessages.call (AdditionMessages.call []
        (Except.ok c6f1)).2 (Except.ok c6f2)).2 (Except.ok c6f3)).1
      = some ⟨ str "S3", 13, str "ABC"⟩ := by
  decide

/-- C8: classifying a `RING` line together with the caller-id line
`+CLIP: "+15551234567",145,,,,0` writes exactly one hang-up command
(`ATH`), invokes the call handler exactly once with a `Call` whose phone
is `+15551234567` and the current timestamp, enqueues nothing (the call
handler runs immediately, not via the deferred queue), and the
classifier returns false (no power-down). -/
theorem c8_theorem :
    checking_incoming_data s0 c8batch
      = ({ s0 with events := [Event.write (str "ATH\r"),
                              Event.callHandler ⟨ str "+15551234567", 0⟩] },
         Except.ok false) ∧
    (checking_incoming_data s0 c8batch).1.events.count (Event.write (str "ATH\r")) = 1 ∧
    (checking_incoming_data s0 c8batch).1.events.count
        (Event.callHandler ⟨ str "+15551234567", 0⟩) = 1 ∧
    (checking_incoming_data s0 c8batch).1.taskQueue = [] := by
  refine ⟨rfl, ?_, ?_, rfl⟩
  · decide
  · decide

/-- C3: the claim quantifies over every line batch, but `parser_command`
first runs the URC classifier over the batch, and a malformed
notification line makes that classifier raise before any
empty/failure/success classification happens: on the single-line batch
`['+CMTI: "SM"']` (non-empty, last line not `"ERROR"`), the source
raises `IndexError` from `d.split(",")[1]` instead of succeeding with
the claimed empty interior. -/
theorem c3_counterexample :
    (parser_command s0 c3batch).2 = Except.error PyExc.indexError ∧
    (parser_command s0 c3batch).2 ≠ Except.ok ((c3batch.drop 1).dropLast) := by
  constructor
  · rfl
  · decide

/-- C3 (amended): provided the URC classification pass over the batch
(which runs first and whose exceptions propagate) returns normally:
an empty batch fails with `Sim900NoResponse`; a batch whose last line is
`"ERROR"` fails with `Sim900Error` carrying the session's raw last-read
buffer; any other batch succeeds with the batch minus its first (echo)
and last (status) lines — in particular `["ATxyz","OK"]` yields the
empty interior without failing. -/
theorem c3_theorem :
    (∀ s : St, parser_command s [] = (s, Except.error PyExc.noResponse)) ∧
    (∀ (s s1 : St) (b : Bool) (data : List Str),
      checking_incoming_data s data = (s1, Except.ok b) →
      data.getLast? = some (str "ERROR") →
      parser_command s data = (s1, Except.error (PyExc.commandError s1.buffer))) ∧
    (∀ (s s1 : St) (b : Bool) (data : List Str),
      checking_incoming_data s data = (s1, Except.ok b) →
      data ≠ [] →
      data.getLast? ≠ some (str "ERROR") →
      parser_command s data = (s1, Except.ok ((data.drop 1).dropLast))) ∧
    (∀ s : St, parser_command s [ str "ATxyz", str "OK"] = (s, Except.ok [])) := by
  refine ⟨fun s => rfl, ?_, ?_, fun s => rfl⟩
  · intro s s1 b data hc hlast
    have hne : data ≠ [] := by
      intro hnil
      subst hnil
      simp at hlast
    have hlen : ¬ data.length = 0 := by simpa [List.length_eq_zero] using hne
    simp only [parser_command, hc, seqE]
    rw [if_neg hlen, if_pos hlast]
  · intro s s1 b data hc hne hlast
    have hlen : ¬ data.length = 0 := by simpa [List.length_eq_zero] using hne
    simp only [parser_command, hc, seqE]
    rw [if_neg hlen, if_neg hlast]

/-- C3 witness: concrete instances of the amended claim — a batch ending
in `"ERROR"` fails with the diagnostic buffer attached, and a three-line
batch succeeds with exactly its interior line. -/
theorem c3_witness :
    parser_command c3wSt [ str "AT", str "ERROR"]
        = (c3wSt, Except.error (PyExc.commandError c3wSt.buffer)) ∧
    parser_command s0 [ str "ATxyz", str "A", str "OK"] = (s0, Except.ok [ str "A"]) :=
  ⟨c3_theorem.2.1 c3wSt c3wSt false [ str "AT", str "ERROR"] rfl rfl,
   c3_theorem.2.2.1 s0 s0 false [ str "ATxyz", str "A", str "OK"] rfl (by decide) (by decide)⟩

/-- C5: the claim says the flag becomes true only once more than one
message-notification id has been seen.  The source sets it from a single
notification: on a fresh session (no ids seen yet), classifying the one
line `+CMTI: "SM",1` — the first and only notification id ever seen —
already sets the flag. -/
theorem c5_counterexample :
    s0.manySms = false ∧
    ((incoming_message s0 [cmtiPosLine]).1).manySms = true := by
  decide

/-- C5 (amended): the multiple-messages flag starts false, is set to
true by message-notification processing exactly when some processed
notification line carries a positive storage index (even the very first
notification seen), and is never cleared by any modelled operation. -/
theorem c5_theorem :
    (∀ w : World, (initSt w).manySms = false) ∧
    (∀ (s s' : St) (data : List Str),
      incoming_message s data = (s', Except.ok ()) →
      s'.manySms = (s.manySms ||
        (data.filter (fun x => decide ((str "+CMTI: \"SM\"") <:+: x))).any
          posStorageIndex)) ∧
    (∀ (op : Op) (s : St), s.manySms = true → (applyOp s op).manySms = true) := by
  refine ⟨fun w => rfl, ?_, ?_⟩
  · intro s s' data h
    exact incoming_message_go_many _ s s' h
  · intro op s h
    exact (applyOp_flagsOK s op).2 h

/-- C5 witness: concrete instances of the amended claim — a fresh
session has the flag clear; one positive-index notification sets it;
once set, running a task step keeps it set. -/
theorem c5_witness :
    (initSt w0).manySms = false ∧
    (({ s0 with manySms := true, taskQueue := [TaskEntry.incomingSms 1] } : St).manySms =
      (s0.manySms ||
        ([cmtiPosLine].filter (fun x => decide ((str "+CMTI: \"SM\"") <:+: x))).any
          posStorageIndex)) ∧
    (applyOp { s0 with manySms := true } Op.runTaskOp).manySms = true :=
  ⟨c5_theorem.1 w0,
   c5_theorem.2.1 s0 { s0 with manySms := true, taskQueue := [TaskEntry.incomingSms 1] }
     [cmtiPosLine] rfl,
   c5_theorem.2.2 Op.runTaskOp { s0 with manySms := true } rfl⟩

/-- C7: the claim quantifies over every batch containing the power-down
marker, but the ring/USSD/message handlers run first and their
exceptions abort the classifier: on `["CUSD: x", "NORMAL POWER DOWN"]`
the malformed USSD line raises `IndexError` before the power-down check,
so the classifier neither returns true nor sets the flag. -/
theorem c7_counterexample :
    (checking_incoming_data s0 c7batch).2 = Except.error PyExc.indexError ∧
    ((checking_incoming_data s0 c7batch).1).npd = false := by
  decide

/-- C7 (amended): for every batch containing the power-down marker on
which the classifier returns normally, it returns true, sets the
power-down flag and clears the connection status; a run-loop iteration
whose poll classifies power-down exits with the break result without
recording the 0.5-unit idle wait; with the flag set, the loop's next
check exits immediately leaving the state untouched; and no modelled
operation ever resets the flag to false. -/
theorem c7_theorem :
    (∀ (s s1 : St) (b : Bool) (data : List Str),
      checking_incoming_data s data = (s1, Except.ok b) →
      checking (str "NORMAL POWER DOWN") data = true →
      b = true ∧ s1.npd = true ∧ s1.status = false) ∧
    (∀ (fd : Nat) (s s1 s4 : St),
      drain fd s = some (s1, Except.ok ()) →
      (inWaiting s1).2 = true →
      checking_incoming_data (read (inWaiting s1).1).1 (read (inWaiting s1).1).2
        = (s4, Except.ok true) →
      runIter fd s = some (s4, Except.ok true) ∧
      s4.events.count (Event.sleep 5) = s.events.count (Event.sleep 5)) ∧
    (∀ (fuel fd : Nat) (s : St), s.npd = true →
      run (fuel + 1) fd s = some (s, Except.ok ())) ∧
    (∀ (op : Op) (s : St), s.npd = true → (applyOp s op).npd = true) := by
  refine ⟨?_, ?_, ?_, ?_⟩
  · intro s s1 b data h hm
    unfold checking_incoming_data at h
    cases hx1 : (if checking (str "RING") data then incoming_call s data
                 else (s, Except.ok ())) with
    | mk sa ra =>
      rw [hx1] at h
      cases ra with
      | error e => simp [seqE] at h
      | ok u =>
        simp only [seqE] at h
        cases hx2 : (if checking (str "CUSD:") data then incoming_ussd sa data
                     else (sa, Except.ok ())) with
        | mk sb rb =>
          rw [hx2] at h
          cases rb with
          | error e => simp [seqE] at h
          | ok u2 =>
            simp only [seqE] at h
            cases hx3 : (if checking (str "+CMTI: \"SM\"") data
                         then incoming_message sb data else (sb, Except.ok ())) with
            | mk sc rc =>
              rw [hx3] at h
              cases rc with
              | error e => simp [seqE] at h
              | ok u3 =>
                simp only [seqE] at h
                rw [if_pos hm] at h
                injection h with hA hB
                injection hB with hb
                refine ⟨hb.symm, ?_, ?_⟩
                · rw [← hA]
                · rw [← hA]
  · intro fd s s1 s4 hd hw hc
    have hcount : s4.events.count (Event.sleep 5) = s.events.count (Event.sleep 5) := by
      have e1 := (drain_stepOK fd s (s1, Except.ok ()) hd).2.2
      have e2 : (inWaiting s1).1.events = s1.events := rfl
      have e3 := (read_stepOK (inWaiting s1).1).2.2
      have e4 := (checking_stepOK (read (inWaiting s1).1).1 (read (inWaiting s1).1).2).2.2
      rw [hc] at e4
      simp only at e1 e3 e4
      rw [e4, e3, e2, e1]
    refine ⟨?_, hcount⟩
    rw [runIter, hd]
    simp only
    rw [if_pos hw, hc]
  · intro fuel fd s h
    rw [run, if_pos h]
  · intro op s h
    exact (applyOp_flagsOK s op).1 h

/-- C7 witness: concrete instances of the amended claim — classifying
the single power-down line sets the flag and returns true; the witness
session's run-loop iteration exits on the power-down classification
without an idle wait; with the flag set, the loop exits at its next
check; and a task step preserves the flag. -/
theorem c7_witness :
    (true = true ∧ c7wResSt.npd = true ∧ c7wResSt.status = false) ∧
    (runIter 1 c7wSt = some (c7wResSt, Except.ok true) ∧
      c7wResSt.events.count (Event.sleep 5) = c7wSt.events.count (Event.sleep 5)) ∧
    run 1 0 c7wResSt = some (c7wResSt, Except.ok ()) ∧
    (applyOp c7wResSt Op.runTaskOp).npd = true :=
  ⟨c7_theorem.1 (read (inWaiting c7wSt).1).1 c7wResSt true
      (read (inWaiting c7wSt).1).2 rfl rfl,
   c7_theorem.2.1 1 c7wSt c7wSt c7wResSt rfl rfl rfl,
   c7_theorem.2.2.1 0 0 c7wResSt rfl,
   c7_theorem.2.2.2 Op.runTaskOp c7wResSt rfl⟩

theorem pySplitCRLF_ne_nil (s : Str) : pySplitCRLF s ≠ [] := by
  rw [pySplitCRLF.eq_def]
  split
  · simp
  · simp
  · split <;> simp

theorem pySplitCRLF_head_pre : ∀ (n : Nat) (s : Str), s.length ≤ n →
    ∃ p ps, pySplitCRLF s = p :: ps ∧ p <+: s := by
  intro n
  induction n with
  | zero =>
    intro s hs
    have hnil : s = [] := List.eq_nil_of_length_eq_zero (Nat.le_zero.mp hs)
    subst hnil
    exact ⟨[], [], rfl, List.nil_prefix⟩
  | succ n ih =>
    intro s hs
    rw [pySplitCRLF.eq_def]
    split
    · exact ⟨[], [], rfl, List.nil_prefix⟩
    · rename_i rest
      exact ⟨[], pySplitCRLF rest, rfl, List.nil_prefix⟩
    · rename_i c rest hne
      obtain ⟨p, ps, hp, hpre⟩ := ih rest (by simp at hs; omega)
      rw [hp]
      exact ⟨c :: p, ps, rfl, List.cons_prefix_cons.mpr ⟨rfl, hpre⟩⟩

theorem pySplitCRLF_no_sep : ∀ (n : Nat) (s : Str), s.length ≤ n →
    ∀ x ∈ pySplitCRLF s, ¬ crlf <:+: x := by
  intro n
  induction n with
  | zero =>
    intro s hs x hx hinf
    have hnil : s = [] := List.eq_nil_of_length_eq_zero (Nat.le_zero.mp hs)
    subst hnil
    have : x = [] := by simpa [pySplitCRLF] using hx
    subst this
    exact absurd (List.infix_nil.mp hinf) (by decide)
  | succ n ih =>
    intro s hs x hx hinf
    rw [pySplitCRLF.eq_def] at hx
    split at hx
    · have : x = [] := by simpa using hx
      subst this
      exact absurd (List.infix_nil.mp hinf) (by decide)
    · rename_i rest
      rcases List.mem_cons.mp hx with h | h
      · subst h
        exact absurd (List.infix_nil.mp hinf) (by decide)
      · exact ih rest (by simp at hs; omega) x h hinf
    · rename_i c rest hne
      have hlen : rest.length ≤ n := by simp at hs; omega
      obtain ⟨p, ps, hp, hpre⟩ := pySplitCRLF_head_pre n rest hlen
      rw [hp] at hx
      rcases List.mem_cons.mp hx with h | h
      · subst h
        rcases List.infix_cons_iff.mp hinf with hpre2 | hinf2
        · have hsplit : ('\r' :: ['\n'] : Str) <+: c :: p := by
            simpa [crlf] using hpre2
          obtain ⟨hc1, hp1⟩ := List.cons_prefix_cons.mp hsplit
          have h2 : (['\n'] : Str) <+: rest := hp1.trans hpre
          obtain ⟨t2, ht2⟩ := h2
          exact hne t2 hc1.symm (by simpa using ht2.symm)
        · exact ih rest hlen p (by rw [hp]; exact List.mem_cons_self p ps) hinf2
      · exact ih rest hlen x (by rw [hp]; exact List.mem_cons_of_mem p h) hinf

theorem filter_nonempty_replicate_nil : ∀ m : Nat,
    (List.replicate m ([] : Str)).filter (fun x => !x.isEmpty) = [] := by
  intro m
  induction m with
  | zero => rfl
  | succ m ih => simp [List.replicate_succ, ih]

theorem pySplitCRLF_sep_rep : ∀ m : Nat,
    pySplitCRLF (List.flatten (List.replicate m crlf)) = List.replicate (m + 1) ([] : Str) := by
  intro m
  induction m with
  | zero => rfl
  | succ m ih =>
    rw [List.replicate_succ, List.flatten_cons]
    rw [show ∀ t : Str, pySplitCRLF (crlf ++ t) = [] :: pySplitCRLF t from fun t => rfl]
    rw [ih]
    rfl

/-- C9: the frame splitter maps the empty buffer and every
separator-only buffer (any number of repeated `"\r\n"`) to the empty
sequence, and every element of its output, on any buffer, is a
non-empty line not containing the line separator. -/
theorem c9_theorem :
    (∀ m : Nat, parser_read (List.flatten (List.replicate m crlf)) = []) ∧
    (∀ (st x : Str), x ∈ parser_read st → x ≠ [] ∧ ¬ crlf <:+: x) := by
  constructor
  · intro m
    unfold parser_read
    rw [pySplitCRLF_sep_rep m]
    exact filter_nonempty_replicate_nil (m + 1)
  · intro st x hx
    unfold parser_read at hx
    rw [List.mem_filter] at hx
    obtain ⟨hmem, hne⟩ := hx
    refine ⟨?_, pySplitCRLF_no_sep st.length st le_rfl x hmem⟩
    intro hcon
    subst hcon
    simp at hne

/-- C9 witness: the buffer `"ab\r\ncd"` contains the element `"ab"`,
which is non-empty and separator-free. -/
theorem c9_witness : str "ab" ≠ [] ∧ ¬ crlf <:+: str "ab" :=
  c9_theorem.2 (str "ab\r\ncd") (str "ab") (by decide)

theorem hexVal_hexDig : ∀ k : Nat, k < 16 → hexVal (hexDig k) = some k := by decide

theorem hexStrVal_toHex4 (v : Nat) (hv : v < 65536) : hexStrVal (toHex4 v) = some v := by
  have h3 : v / 4096 % 16 < 16 := Nat.mod_lt _ (by omega)
  have h2 : v / 256 % 16 < 16 := Nat.mod_lt _ (by omega)
  have h1 : v / 16 % 16 < 16 := Nat.mod_lt _ (by omega)
  have h0 : v % 16 < 16 := Nat.mod_lt _ (by omega)
  rw [show hexStrVal (toHex4 v) =
      hexStrValGo 0 [hexDig (v / 4096 % 16), hexDig (v / 256 % 16),
        hexDig (v / 16 % 16), hexDig (v % 16)] from rfl]
  simp only [hexStrValGo, hexVal_hexDig _ h3, hexVal_hexDig _ h2, hexVal_hexDig _ h1,
    hexVal_hexDig _ h0]
  congr 1
  omega

/-- C10: round trip of the hex/wide-character transform — for every
string whose characters are all basic-multilingual-plane code points
(one UTF-16 unit each), `decode` undoes `encode`. -/
theorem c10_theorem (s : Str) (h : ∀ c ∈ s, c.toNat < 65536) :
    decode (encode s) = Except.ok s := by
  induction s with
  | nil => rfl
  | cons c cs ih =>
    have hc : c.toNat < 65536 := h c (List.mem_cons_self c cs)
    have hcs : ∀ x ∈ cs, x.toNat < 65536 := fun x hx => h x (List.mem_cons_of_mem c hx)
    have henc : encode (c :: cs) = toHex4 c.toNat ++ encode cs := by
      simp [encode, encodeChar, hc]
    rw [henc]
    rw [show toHex4 c.toNat = [hexDig (c.toNat / 4096 % 16), hexDig (c.toNat / 256 % 16),
        hexDig (c.toNat / 16 % 16), hexDig (c.toNat % 16)] from rfl]
    have h4 : hexStrVal [hexDig (c.toNat / 4096 % 16), hexDig (c.toNat / 256 % 16),
        hexDig (c.toNat / 16 % 16), hexDig (c.toNat % 16)] = some c.toNat := by
      simpa [toHex4] using hexStrVal_toHex4 c.toNat hc
    simp only [List.cons_append, List.nil_append, List.append_eq, decode, h4, ih hcs]
    rw [Char.ofNat_toNat]

/-- C10 witness: the round trip evaluated on the concrete BMP string
`"AB"`. -/
theorem c10_witness : decode (encode (str "AB")) = Except.ok (str "AB") :=
  c10_theorem (str "AB") (by decide)
